import Mathlib

/-!
Verification development for the WhatsApp representative-agent repository.

Shallow embedding of the message intake and reply pipeline:
* `Tools`   — `executeLocalTool` from `src/services/ai/tools.ts`
* `Conv`    — `ConversationManager` (touch/end) and `OwnerService`
* `Gateway` — `GeminiService` request pacing, error classification and
              key-rotation retry loop
* `Batch`   — `WhatsAppClient.processMessageBatch` / `sendResponseAndLog`
* `Intake`  — `WhatsAppClient.handleIncomingMessage`
* `Auth`    — `usePostgresAuthState` writeData/readData round trip

Machine integers are modelled as `Nat`; JS objects as structures; fallible
external calls as `Except`-valued environment fields; the relational store
as association lists.
-/

namespace Str

/-- Substring occurrence on character lists (structural, so that concrete
instances evaluate inside the kernel). -/
def occurs : List Char → List Char → Bool
  | [], needle => needle.isEmpty
  | h :: t, needle => needle.isPrefixOf (h :: t) || occurs t needle

/-- JS `s.includes(pat)`. -/
def included (s pat : String) : Bool :=
  occurs s.data pat.data

/-- JS `s.endsWith(suffix)`. -/
def endsWith (s suffix : String) : Bool :=
  suffix.data.isSuffixOf s.data

/-- JS `s.trim()` (whitespace at both ends removed). -/
def trimStr (s : String) : String :=
  String.mk
    (((s.data.dropWhile Char.isWhitespace).reverse.dropWhile
      Char.isWhitespace).reverse)

/-- JS `s.toLowerCase()` (ASCII case folding, as the compared literals are
ASCII). -/
def lowerStr (s : String) : String :=
  String.mk (s.data.map Char.toLower)

/-- Drop the last `n` characters. -/
def dropRightStr (s : String) (n : Nat) : String :=
  String.mk (s.data.take (s.data.length - n))

/-- JS `s.split('@')[0]`: the characters before the first `@` (the whole
string when there is none). -/
def beforeAt (s : String) : String :=
  String.mk (s.data.takeWhile (fun c => ¬ c = '@'))

/-- Replace the first occurrence of `pat` (JS `String.replace` with a string
argument replaces only the first match). -/
def replaceFirstList (pat repl : List Char) : List Char → List Char
  | [] => if pat.isPrefixOf ([] : List Char) then repl else []
  | h :: t =>
      if pat.isPrefixOf (h :: t) then repl ++ (h :: t).drop pat.length
      else h :: replaceFirstList pat repl t

/-- String version of `replaceFirstList`. -/
def replaceFirst (s pat repl : String) : String :=
  String.mk (replaceFirstList pat.data repl.data s.data)

/-- JS `array.join(sep)` on strings. -/
def joinWith (sep : String) : List String → String
  | [] => ""
  | [s] => s
  | s :: t :: rest => s ++ sep ++ joinWith sep (t :: rest)

end Str

namespace Tools

/-- The JS value returned by one `executeLocalTool` dispatch.  Most branches
return `\x7b result: string \x7d` or `\x7b error: string \x7d`; the
`check_schedule` branch returns the bare string produced by
`googleCalendar.listEvents`, and the `check_availability` branch returns
`\x7b result: undefined \x7d` when the slot list is empty (JS `slots[0]` on an
empty array). -/
inductive ToolReturn where
  | resultVal (s : String)
  | errorVal (s : String)
  | plainString (s : String)
  | resultUndef
  deriving Repr, DecidableEq

/-- Arguments object handed to `executeLocalTool` (union of the JSON-schema
argument fields of the declared tools; absent fields are `none`). -/
structure ToolArgs where
  day : Option String
  query : Option String
  limit : Option Nat
  date : Option String
  duration : Option Nat
  time : Option String
  customerName : Option String
  customerEmail : Option String
  purpose : Option String
  timezone : Option String
  url : Option String
  extractType : Option String
  summaryAddition : Option String
  deriving Repr, DecidableEq

/-- An args object with every field absent. -/
def noArgs : ToolArgs :=
  ⟨none, none, none, none, none, none, none, none, none, none, none, none, none⟩

/-- The `context` third parameter of `executeLocalTool`
(`\x7b contact, userProfile \x7d`).  It carries no owner/identity flag. -/
structure ToolContext where
  contactPhone : Option String
  userTimezone : Option String
  deriving Repr, DecidableEq

/-- Result object of `googleCalendar.createMeeting`
(`\x7b success, meetLink, eventId, error \x7d`). -/
structure MeetingOutcome where
  success : Bool
  meetLink : String
  eventId : String
  error : String
  deriving Repr, DecidableEq

/-- A row returned by the `search_messages` database query, pre-projected to
the three fields the formatter uses. -/
structure MsgRow where
  createdAt : String
  role : String
  content : String
  deriving Repr, DecidableEq

/-- External backends awaited by `executeLocalTool`: the calendar service,
the message-log store, the owner tools, and the web scraper.  Fallible calls
(those wrapped in try/catch in the source) are `Except`-valued; the thrown
message is the `error` payload. -/
structure ToolEnv where
  listEvents : String → String
  searchRows : String → Nat → Except Unit (List MsgRow)
  dailySummary : Option String → String
  searchConvs : String → Nat → String
  recentConvs : Nat → String
  systemStatus : String
  analytics : String
  findSlots : String → Option Nat → Except String (List String)
  createMeeting : String → String → Nat → String → Option String → String →
    Option String → Except String MeetingOutcome
  formatTime : String → Except Unit String
  nowIso : String
  localeString : String
  systemTimezone : String
  scrapeUrl : String → String → Except String String
  searchWeb : String → Option String → Except String String

/-- JS truthy-default `x || d` for an optional string (absent or empty picks
the default). -/
def orDefaultStr (x : Option String) (d : String) : String :=
  match x with
  | none => d
  | some s => if s = "" then d else s

/-- JS truthy-default `x || d` for an optional number (absent or 0 picks the
default). -/
def orDefaultNat (x : Option Nat) (d : Nat) : Nat :=
  match x with
  | none => d
  | some n => if n = 0 then d else n

/-- JS string interpolation of a possibly-undefined value. -/
def showOpt (x : Option String) : String :=
  match x with
  | none => "undefined"
  | some s => s

/-- Formatter used by the `search_messages` branch:
`[createdAt] role: content`. -/
def fmtMsgRow (r : MsgRow) : String :=
  "[" ++ r.createdAt ++ "] " ++ r.role ++ ": " ++ r.content

/-- A row of the `contacts` table (the store `update_contact_info` is
documented to mutate). -/
structure ContactRow where
  phone : String
  name : String
  summary : String
  trustLevel : Nat
  deriving Repr, DecidableEq

/-- The thirteen tool names declared in `AI_TOOLS`. -/
def fixedToolNames : List String :=
  ["update_contact_info", "check_schedule", "search_messages",
   "get_daily_summary", "search_all_conversations", "get_recent_conversations",
   "get_system_status", "get_analytics", "get_current_time",
   "check_availability", "schedule_meeting", "browse_url", "search_web"]

/-- The five tool names whose declarations say "OWNER ONLY". -/
def ownerGatedNames : List String :=
  ["get_daily_summary", "search_all_conversations", "get_recent_conversations",
   "get_system_status", "get_analytics"]

/-- Shallow embedding of `executeLocalTool(name, args, context)` from
`src/services/ai/tools.ts`.  The contacts store is threaded through to record
its mutations; no branch of the source touches the `contacts` table, so every
branch returns it unchanged.  Branch order and returned strings follow the
source `switch` statement. -/
def executeLocalTool (name : String) (args : ToolArgs) (ctx : ToolContext)
    (env : ToolEnv) (store : List ContactRow) : ToolReturn × List ContactRow :=
  match name with
  | "update_contact_info" =>
      (ToolReturn.resultVal "Contact info updated. You can confirm this to the user.", store)
  | "check_schedule" =>
      (ToolReturn.plainString (env.listEvents (orDefaultStr args.day "today")), store)
  | "search_messages" =>
      match env.searchRows (showOpt args.query) (orDefaultNat args.limit 5) with
      | Except.error _ => (ToolReturn.errorVal "Database search failed.", store)
      | Except.ok results =>
          if results.length = 0 then
            (ToolReturn.resultVal "No messages found matching that query.", store)
          else
            (ToolReturn.resultVal
              (Str.joinWith "\n" (results.map fmtMsgRow)), store)
  | "get_daily_summary" =>
      (ToolReturn.resultVal (env.dailySummary args.date), store)
  | "search_all_conversations" =>
      (ToolReturn.resultVal
        (env.searchConvs (showOpt args.query) (orDefaultNat args.limit 10)), store)
  | "get_recent_conversations" =>
      (ToolReturn.resultVal (env.recentConvs (orDefaultNat args.limit 10)), store)
  | "get_system_status" =>
      (ToolReturn.resultVal env.systemStatus, store)
  | "get_analytics" =>
      (ToolReturn.resultVal env.analytics, store)
  | "check_availability" =>
      match env.findSlots (showOpt args.date) args.duration with
      | Except.error msg =>
          (ToolReturn.errorVal ("Failed to check availability: " ++ msg), store)
      | Except.ok slots =>
          match slots with
          | [] => (ToolReturn.resultUndef, store)
          | s0 :: rest =>
              if Str.included s0 "No" then
                (ToolReturn.resultVal s0, store)
              else
                (ToolReturn.resultVal
                  ("Available slots for " ++ showOpt args.date ++ ":\n" ++
                    Str.joinWith ", " ((s0 :: rest).take 10) ++
                    (if (s0 :: rest).length > 10 then
                      " (and " ++ toString ((s0 :: rest).length - 10) ++ " more)"
                    else "")), store)
  | "schedule_meeting" =>
      match env.createMeeting (showOpt args.date) (showOpt args.time)
          (args.duration.getD 0) (showOpt args.customerName) args.customerEmail
          (showOpt args.purpose) ctx.contactPhone with
      | Except.error msg =>
          (ToolReturn.errorVal ("Failed to schedule meeting: " ++ msg), store)
      | Except.ok r =>
          if r.success then
            (ToolReturn.resultVal
              ("✅ Meeting scheduled successfully!\n\nDate: " ++ showOpt args.date ++
                "\nTime: " ++ showOpt args.time ++
                "\nDuration: " ++ toString (args.duration.getD 0) ++
                " minutes\nGoogle Meet Link: " ++ r.meetLink ++
                "\n\nEvent ID: " ++ r.eventId), store)
          else
            (ToolReturn.errorVal ("Failed to schedule meeting: " ++ r.error), store)
  | "get_current_time" =>
      match env.formatTime (orDefaultStr args.timezone
        (orDefaultStr ctx.userTimezone env.systemTimezone)) with
      | Except.ok s =>
          (ToolReturn.resultVal
            ("Current time: " ++ s ++ "\nTimezone: " ++
              orDefaultStr args.timezone
                (orDefaultStr ctx.userTimezone env.systemTimezone) ++
              "\nISO: " ++ env.nowIso), store)
      | Except.error _ =>
          (ToolReturn.resultVal
            ("Current time: " ++ env.localeString ++ "\nTimezone: " ++
              env.systemTimezone), store)
  | "browse_url" =>
      match env.scrapeUrl (showOpt args.url) (args.extractType.getD "summary") with
      | Except.ok content => (ToolReturn.resultVal content, store)
      | Except.error msg =>
          (ToolReturn.errorVal ("Failed to browse URL: " ++ msg), store)
  | "search_web" =>
      match env.searchWeb (showOpt args.query) none with
      | Except.ok content => (ToolReturn.resultVal content, store)
      | Except.error msg =>
          (ToolReturn.errorVal ("Failed to search web: " ++ msg), store)
  | _ => (ToolReturn.errorVal "Tool not found.", store)

/-- A concrete backend environment used by witnesses and counterexamples. -/
def sampleEnv : ToolEnv where
  listEvents := fun d => "- [All Day] Standup (" ++ d ++ ")"
  searchRows := fun _ _ => Except.ok []
  dailySummary := fun _ => "3 conversations today"
  searchConvs := fun q _ => "hits for " ++ q
  recentConvs := fun n => toString n ++ " recent conversations"
  systemStatus := "queue depth 5, workers 4"
  analytics := "42 messages this week"
  findSlots := fun _ _ => Except.ok ["09:00", "10:00"]
  createMeeting := fun _ _ _ _ _ _ _ => Except.ok ⟨true, "meet.example/abc", "ev1", ""⟩
  formatTime := fun _ => Except.ok "Monday, January 5, 2026 at 10:00:00 AM"
  nowIso := "2026-01-05T10:00:00.000Z"
  localeString := "1/5/2026, 10:00:00 AM"
  systemTimezone := "UTC"
  scrapeUrl := fun _ _ => Except.ok "page content"
  searchWeb := fun _ _ => Except.ok "search results"

/-- A concrete non-owner invocation context. -/
def strangerCtx : ToolContext := ⟨some "254700000001@s.whatsapp.net", none⟩

/-- A concrete contacts store with one row. -/
def sampleStore : List ContactRow :=
  [⟨"254700000001@s.whatsapp.net", "Alice", "New contact.", 0⟩]

/-- Shape predicate: the JS value is `\x7b result: string \x7d` or
`\x7b error: string \x7d`. -/
def isResultOrError (r : ToolReturn) : Prop :=
  (∃ s, r = ToolReturn.resultVal s) ∨ (∃ s, r = ToolReturn.errorVal s)

/-- Boolean discriminator: the value is `\x7b error: string \x7d`. -/
def ToolReturn.isError : ToolReturn → Bool
  | ToolReturn.errorVal _ => true
  | _ => false

/-- Boolean discriminator: the value is `\x7b result: string \x7d`. -/
def ToolReturn.isResult : ToolReturn → Bool
  | ToolReturn.resultVal _ => true
  | _ => false

end Tools

namespace Conv

/-- A row of the `conversations` table, projected to the fields the session
tracker reads and writes (`id`, `contactPhone`, `status`; timestamps are not
observable by the claims). -/
structure ConvRow where
  id : Nat
  contactPhone : String
  active : Bool
  deriving Repr, DecidableEq

/-- Session-tracker database state: the `conversations` rows, a fresh-id
counter for inserts, and the `report_queue` rows enqueued by
`endConversation` (contact phone and conversation id). -/
structure ConvState where
  rows : List ConvRow
  nextId : Nat
  reports : List (String × Nat)
  deriving Repr, DecidableEq

/-- The initial (empty) database. -/
def initConvState : ConvState := ⟨[], 0, []⟩

/-- The SQL predicate `contactPhone = p AND status = 'active'`. -/
def matchesActive (phone : String) (r : ConvRow) : Bool :=
  r.contactPhone == phone && r.active

/-- The query `select from conversations where contactPhone = p and
status = 'active'` followed by `res[0]`. -/
def findActive (rows : List ConvRow) (phone : String) : Option ConvRow :=
  rows.find? (matchesActive phone)

/-- Shallow embedding of `ConversationManager.touchConversation`: if no
`active` row exists for the contact, insert one (status `active`, fresh id);
otherwise leave the table unchanged.  The in-memory timer (re)arming has no
database effect and is not modelled. -/
def touchConversation (s : ConvState) (phone : String) : ConvState :=
  match findActive s.rows phone with
  | some _ => s
  | none =>
      { rows := s.rows ++ [⟨s.nextId, phone, true⟩]
        nextId := s.nextId + 1
        reports := s.reports }

/-- Shallow embedding of `ConversationManager.endConversation`: look up the
active row for the contact; if none, return; otherwise update the row with
that id to status `completed` and enqueue one report-queue item. -/
def endConversation (s : ConvState) (phone : String) : ConvState :=
  match findActive s.rows phone with
  | none => s
  | some r =>
      { rows := s.rows.map (fun q => if q.id = r.id then ⟨q.id, q.contactPhone, false⟩ else q)
        nextId := s.nextId
        reports := s.reports ++ [(phone, r.id)] }

/-- The operations the pipeline performs on the session tracker. -/
inductive ConvOp where
  | touch (phone : String)
  | close (phone : String)
  deriving Repr, DecidableEq

/-- Apply one session-tracker operation. -/
def applyOp (s : ConvState) (op : ConvOp) : ConvState :=
  match op with
  | ConvOp.touch phone => touchConversation s phone
  | ConvOp.close phone => endConversation s phone

/-- Run a sequence of session-tracker operations from a starting state. -/
def applyOps (s : ConvState) (ops : List ConvOp) : ConvState :=
  ops.foldl applyOp s

/-- Number of `status='active'` rows for one contact. -/
def countActive (rows : List ConvRow) (phone : String) : Nat :=
  (rows.filter (matchesActive phone)).length

/-- The data-model invariant: at most one `active` conversations row per
contact. -/
def Inv (s : ConvState) : Prop :=
  ∀ q, countActive s.rows q ≤ 1

end Conv

namespace Gateway

/-- `RATE_LIMIT_CONFIG.MIN_REQUEST_SPACING_MS` (3 s between requests). -/
def MIN_REQUEST_SPACING_MS : Nat := 3000

/-- `RATE_LIMIT_CONFIG.MAX_RETRIES`. -/
def MAX_RETRIES : Nat := 50

/-- `RATE_LIMIT_CONFIG.RETRY_DELAY_MS`. -/
def RETRY_DELAY_MS : Nat := 2000

/-- `RATE_LIMIT_CONFIG.DEFAULT_RETRY_SECONDS`. -/
def DEFAULT_RETRY_SECONDS : Nat := 60

/-- Start time of the n-th queued gateway operation under the promise chain
of `executeWithRetry`: slot n records `startTime = Date.now()` and runs the
operation (wall-clock duration `d n`, outcome `ok n`).  When the operation
resolves (`ok n = true`), `_enforceRateLimit(startTime)` sleeps
`max 0 (MIN_REQUEST_SPACING_MS - elapsed)`, so the chain releases — and the
next slot starts — at `start n + max (d n) MIN_REQUEST_SPACING_MS`.  When it
throws (`ok n = false`), the catch path rejects immediately without running
`_enforceRateLimit`, so the next slot starts at `start n + d n` with no added
spacing. -/
def slotStart (t0 : Nat) (d : Nat → Nat) (ok : Nat → Bool) : Nat → Nat
  | 0 => t0
  | n + 1 =>
      slotStart t0 d ok n +
        (if ok n then max (d n) MIN_REQUEST_SPACING_MS else d n)

/-- Completion time of the n-th operation's LLM request: its slot start plus
its duration (the request is issued at the slot start and awaited). -/
def requestEnd (t0 : Nat) (d : Nat → Nat) (ok : Nat → Bool) (n : Nat) : Nat :=
  slotStart t0 d ok n + d n

/-- JS `a.includes(b)` on strings. -/
def strIncludes (s pat : String) : Bool :=
  Str.included s pat

/-- A transport error as inspected by the gateway error handlers:
`status`, `code`, `message`, and the `RetryInfo.retryDelay` seconds extracted
from `errorDetails` (when present and parseable). -/
structure GemError where
  status : Option Nat
  code : Option Nat
  message : String
  retryDelaySeconds : Option Nat
  deriving Repr, DecidableEq

/-- Shallow embedding of `GeminiService._isRateLimitError`. -/
def isRateLimitError (e : GemError) : Bool :=
  e.status = some 429 || e.code = some 429 ||
  e.status = some 503 || e.code = some 503 ||
  strIncludes e.message "429" || strIncludes e.message "503" ||
  strIncludes e.message "overloaded"

/-- Shallow embedding of `GeminiService._isInvalidKeyError`
(`ERROR_CODES.INVALID_KEY` is 400; statuses 401/403 are not checked). -/
def isInvalidKeyError (e : GemError) : Bool :=
  e.status = some 400 ||
  strIncludes e.message "API_KEY_INVALID" ||
  strIncludes e.message "API key expired"

/-- Shallow embedding of `GeminiService._extractRetryDelay`. -/
def extractRetryDelay (e : GemError) : Nat :=
  e.retryDelaySeconds.getD DEFAULT_RETRY_SECONDS

/-- Modelled from the spec: the in-memory API Key Pool of the `keyManager`
module, whose source is not under `src/` (only its callers are).  Per §3 it
is an ordered set of credentials with per-key `availableAt` cooldowns and a
round-robin pointer; `getNextKey` picks the next key whose
`availableAt ≤ now` and `markRateLimited` advances a key's `availableAt`. -/
structure KeyPool where
  keys : List String
  idx : Nat
  availableAt : List (String × Nat)
  deriving Repr, DecidableEq

/-- Cooldown expiry for a key (0 when never rate limited). -/
def availAt (p : KeyPool) (k : String) : Nat :=
  match p.availableAt.find? (fun e => e.1 = k) with
  | some e => e.2
  | none => 0

/-- Modelled from the spec: `keyManager.markRateLimited(key, seconds)` sets
that key's `availableAt = now + seconds·1000`. -/
def markRateLimited (p : KeyPool) (k : String) (seconds now : Nat) : KeyPool :=
  { keys := p.keys
    idx := p.idx
    availableAt := (k, now + seconds * 1000) ::
      p.availableAt.filter (fun e => ¬ e.1 = k) }

/-- Modelled from the spec: `keyManager.getNextKey()` scans round-robin from
the current pointer for a key whose cooldown has expired; returns the key and
the advanced pool, or `none` when every key is cooling down
(`ALL_KEYS_EXHAUSTED`). -/
def getNextKey (p : KeyPool) (now : Nat) : Option (String × KeyPool) :=
  let n := p.keys.length
  let candidates := (List.range n).filterMap (fun i =>
    match p.keys.get? ((p.idx + i) % n) with
    | some k => if availAt p k ≤ now then some ((p.idx + i) % n, k) else none
    | none => none)
  match candidates with
  | [] => none
  | (i, k) :: _ => some (k, { keys := p.keys, idx := (i + 1) % n, availableAt := p.availableAt })

/-- Shallow embedding of `GeminiService._handleOperationError`: decides
whether the retry loop continues and how the key pool changes.  Branches in
source order: `ALL_KEYS_EXHAUSTED` propagates; rate-limit errors retry (503
flavours sleep without penalizing the key, 429 flavours mark the current key
rate limited and sleep `RETRY_DELAY_MS`); invalid-key errors retry with no
pool change (the source only logs "Skipping..."); anything else does not
retry. -/
def handleOperationError (e : GemError) (currentKey : String) (p : KeyPool)
    (now : Nat) : Bool × KeyPool :=
  if e.message = "ALL_KEYS_EXHAUSTED" then (false, p)
  else if isRateLimitError e then
    if e.status = some 503 || e.code = some 503 ||
        strIncludes e.message "503" || strIncludes e.message "overloaded" then
      (true, p)
    else
      (true, markRateLimited p currentKey (extractRetryDelay e) now)
  else if isInvalidKeyError e then (true, p)
  else (false, p)

/-- Outcome of the key-rotation retry loop, with the keys attempted. -/
structure RotationTrace (α : Type) where
  outcome : Except GemError α
  usedKeys : List String
  deriving Repr

/-- Shallow embedding of `GeminiService._retryWithKeyRotation` (fuel is the
remaining attempt budget out of `MAX_RETRIES`): each attempt draws the next
key, runs the operation (`oracle attempt key`), and on failure consults
`_handleOperationError`; when it says not to retry the error is thrown,
otherwise the loop continues; after the budget the last error is thrown.
`lastErr` is the default error thrown when the loop never ran an attempt. -/
def retryWithKeyRotation (oracle : Nat → String → Except GemError α)
    (lastErr : GemError) :
    Nat → Nat → KeyPool → Nat → List String → RotationTrace α
  | 0, _, _, _, used => ⟨Except.error lastErr, used⟩
  | fuel + 1, attempt, p, now, used =>
      match getNextKey p now with
      | none => ⟨Except.error ⟨none, none, "ALL_KEYS_EXHAUSTED", none⟩, used⟩
      | some (k, p') =>
          match oracle attempt k with
          | Except.ok v => ⟨Except.ok v, used ++ [k]⟩
          | Except.error e =>
              let (shouldRetry, p'') := handleOperationError e k p' now
              if shouldRetry then
                retryWithKeyRotation oracle e fuel (attempt + 1) p''
                  (now + (if isRateLimitError e then
                    (if e.status = some 503 || e.code = some 503 ||
                        strIncludes e.message "503" ||
                        strIncludes e.message "overloaded" then
                      MIN_REQUEST_SPACING_MS * 2 else RETRY_DELAY_MS)
                  else 0))
                  (used ++ [k])
              else ⟨Except.error e, used ++ [k]⟩

end Gateway

namespace Batch

/-- A `GeminiResponse`: either final text or a tool call (tool arguments are
opaque to the pipeline and carried as a tag). -/
inductive GemResp where
  | text (content : String)
  | toolCall (name : String) (argsTag : Nat)
  deriving Repr, DecidableEq

/-- Outcome of one `geminiService.generateReply` call as observed by
`processMessageBatch`: a response, or a thrown error with `status`, `code`
and `message` (the fields the catch blocks inspect). -/
inductive GemOutcome where
  | ok (r : GemResp)
  | fail (status : Option Nat) (code : Option Nat) (msg : String)
  deriving Repr, DecidableEq

/-- The contact row fields `processMessageBatch` reads. -/
structure BatchContact where
  phone : String
  name : String
  isVerified : Bool
  deriving Repr, DecidableEq

/-- Environment of `processMessageBatch`: owner detection, the rate-limit
manager flag, the contact store, the sequence of `generateReply` outcomes
(indexed by call number within the batch) and the serialized results of tool
executions (indexed by loop step; the executor result only feeds the next
prompt, which is opaque). -/
structure BatchEnv where
  isOwner : String → Bool
  rateLimited : Bool
  contact : String → Option BatchContact
  llm : Nat → GemOutcome

/-- Observable effects of processing one batch. -/
structure BatchResult where
  llmCalls : Nat
  toolExecs : Nat
  sent : List String
  userLogs : List String
  agentLogs : List String
  queuedForLater : Bool
  sessionTouched : Bool
  sessionEnded : Bool
  profilingScheduled : Bool
  deriving Repr, DecidableEq

/-- The result of a batch that was dropped before doing anything. -/
def emptyResult : BatchResult := ⟨0, 0, [], [], [], false, false, false, false⟩

/-- `MAX_TOOL_DEPTH` in `processMessageBatch` (5). -/
def MAX_TOOL_DEPTH : Nat := 5

/-- The short-circuit regex
`/^(ok|okay|k|lol|lmao|haha|thanks|thx|cool|👍|✅|yes|no|yeah|yup|nope)\.?$/i`
applied by `processMessageBatch` to the trimmed concatenated text: the whole
string is one of the listed words, case-insensitively, with an optional
trailing dot. -/
def ignoredPattern (s : String) : Bool :=
  let t := Str.trimStr s
  let core := if Str.endsWith t "." then Str.dropRightStr t 1 else t
  ["ok", "okay", "k", "lol", "lmao", "haha", "thanks", "thx", "cool",
   "👍", "✅", "yes", "no", "yeah", "yup", "nope"].contains (Str.lowerStr core)

/-- The canned fallback sent when the tool loop exhausts `MAX_TOOL_DEPTH`
with the model still asking for tools. -/
def maxDepthFallback : String :=
  "I\x27m having trouble getting all the information. I might be getting stuck in a research loop. Could you ask a more specific question?"

/-- Shallow embedding of `WhatsAppClient.sendResponseAndLog`: strip the
`#END_SESSION#` sentinel (first occurrence, then trim) when present, send the
final text, append a `role=agent` message-log row, end or touch the session,
and schedule profiling for non-owners when the rate limiter is idle. -/
def sendResponseAndLog (isOwner rateLimited : Bool) (responseText : String)
    (acc : BatchResult) : BatchResult :=
  let shouldEnd := Str.included responseText "#END_SESSION#"
  let final := if shouldEnd then
      Str.trimStr (Str.replaceFirst responseText "#END_SESSION#" "")
    else responseText
  { llmCalls := acc.llmCalls
    toolExecs := acc.toolExecs
    sent := acc.sent ++ [final]
    userLogs := acc.userLogs
    agentLogs := acc.agentLogs ++ [final]
    queuedForLater := acc.queuedForLater
    sessionTouched := acc.sessionTouched || !shouldEnd
    sessionEnded := acc.sessionEnded || shouldEnd
    profilingScheduled := acc.profilingScheduled ||
      (!isOwner && !rateLimited) }

/-- One step outcome of the tool loop: the response it stopped at, the
accumulated effects, and whether the batch aborted (returned early because a
rate limit was hit mid-loop). -/
structure LoopOut where
  resp : GemResp
  acc : BatchResult
  aborted : Bool
  deriving Repr, DecidableEq

/-- Shallow embedding of the `while (type === 'tool_call' && toolDepth <
MAX_TOOL_DEPTH)` loop of `processMessageBatch`.  `fuel` is
`MAX_TOOL_DEPTH - toolDepth`; `callIdx` numbers the next `generateReply`
call.  Each iteration executes the requested tool (throwing executors are
converted to `\x7b error \x7d` results by the source, with no other
observable) and asks the model again; a 429/exhausted throw for a non-owner
re-queues the batch and aborts, any other throw sends the owner an error note
and breaks with the response still being a tool call. -/
def toolLoop (env : BatchEnv) (isOwner : Bool) :
    Nat → Nat → GemResp → BatchResult → LoopOut
  | _, _, GemResp.text c, acc => ⟨GemResp.text c, acc, false⟩
  | 0, _, resp, acc => ⟨resp, acc, false⟩
  | fuel + 1, callIdx, GemResp.toolCall name tag, acc =>
      let acc1 : BatchResult :=
        { acc with toolExecs := acc.toolExecs + 1, llmCalls := acc.llmCalls + 1 }
      match env.llm callIdx with
      | GemOutcome.fail st code msg =>
          if (st = some 429 || code = some 429 || msg = "ALL_KEYS_EXHAUSTED")
              && !isOwner then
            ⟨GemResp.toolCall name tag, { acc1 with queuedForLater := true }, true⟩
          else
            ⟨GemResp.toolCall name tag,
              { acc1 with sent := acc1.sent ++
                (if isOwner then ["⚠️ AI Error during tool: " ++ msg] else []) },
              false⟩
      | GemOutcome.ok r' => toolLoop env isOwner fuel (callIdx + 1) r' acc1

/-- Shallow embedding of `WhatsAppClient.processMessageBatch(remoteJid,
messages)`: short-circuit trivial acks from non-owners; queue when the
rate-limit manager is limited (non-owners only); load the contact (bail out
when absent); log the user batch; call `generateReply`; run the bounded tool
loop; send the final text — or the canned fallback when the loop exhausted
with the model still calling tools.  The identity-validation step only
chooses the (opaque) prompt: `extractNameFromMessage` always returns `null`
in the source, so it updates no contact and has no observable effect here. -/
def processMessageBatch (env : BatchEnv) (remoteJid : String)
    (messages : List String) : BatchResult :=
  let fullText := Str.joinWith "\n" messages
  let isOwner := env.isOwner remoteJid
  if !isOwner && ignoredPattern fullText then emptyResult
  else if env.rateLimited && !isOwner then
    { emptyResult with queuedForLater := true }
  else
    match env.contact remoteJid with
    | none => emptyResult
    | some _ =>
        let acc0 : BatchResult := { emptyResult with userLogs := [fullText] }
        match env.llm 0 with
        | GemOutcome.fail st code msg =>
            let acc1 := { acc0 with llmCalls := 1 }
            if st = some 429 || code = some 429 || msg = "ALL_KEYS_EXHAUSTED" then
              { acc1 with queuedForLater := true }
            else
              { acc1 with sent :=
                  if isOwner then ["⚠️ AI Error: " ++ msg] else [] }
        | GemOutcome.ok r0 =>
            let out := toolLoop env isOwner MAX_TOOL_DEPTH 1 r0
              { acc0 with llmCalls := 1 }
            if out.aborted then out.acc
            else
              match out.resp with
              | GemResp.text c =>
                  if c = "" then out.acc
                  else sendResponseAndLog isOwner env.rateLimited c out.acc
              | GemResp.toolCall _ _ =>
                  sendResponseAndLog isOwner env.rateLimited maxDepthFallback out.acc

end Batch

namespace Intake

/-- Owner configuration read from the environment
(`config.ownerPhone`, `config.ownerLid`). -/
structure OwnerConfig where
  ownerPhone : String
  ownerLid : Option String
  deriving Repr, DecidableEq

/-- JS `s.replace(/[\+\s]/g, '')`. -/
def stripPlusSpace (s : String) : String :=
  String.mk (s.data.filter (fun c => ¬ (c = '+' ∨ c = ' ')))

/-- JS `s.replace(/\+/g, '')`. -/
def stripPlus (s : String) : String :=
  String.mk (s.data.filter (fun c => ¬ c = '+'))

/-- Shallow embedding of `OwnerService.getOwnerJid`. -/
def getOwnerJid (cfg : OwnerConfig) : String :=
  stripPlusSpace cfg.ownerPhone ++ "@s.whatsapp.net"

/-- Shallow embedding of `OwnerService.isOwner(jid)`: extract the part before
`@`, normalize, and compare against the owner phone, the configured LID, and
the hardcoded fallback LID. -/
def isOwner (cfg : OwnerConfig) (jid : String) : Bool :=
  if cfg.ownerPhone = "" then false
  else
    let phone := Str.beforeAt jid
    let normalizedOwner := stripPlusSpace cfg.ownerPhone
    let normalizedPhone := stripPlusSpace phone
    let lidMatch : Bool :=
      match cfg.ownerLid with
      | some lid => normalizedPhone == lid
      | none => false
    if normalizedPhone = normalizedOwner then true
    else if lidMatch then true
    else if normalizedPhone = "128724850720810" then true
    else false

/-- Shallow embedding of `OwnerService.normalizeJid(jid)`: drop `+`, map the
known owner LIDs to the canonical owner JID. -/
def normalizeJid (cfg : OwnerConfig) (jid : String) : String :=
  let normalized := stripPlus jid
  let lidMatch : Bool :=
    match cfg.ownerLid with
    | some lid => normalized == lid
    | none => false
  if Gateway.strIncludes normalized "128724850720810" || lidMatch then
    getOwnerJid cfg
  else normalized

/-- An inbound `messages.upsert` event after the `fromMe`/decryptable checks
of the caller: remote JID, optional text, optional push name. -/
structure InboundMsg where
  remoteJid : String
  text : Option String
  pushName : Option String
  deriving Repr, DecidableEq

/-- The contact row fields `handleIncomingMessage` reads and writes. -/
structure ContactRec where
  phone : String
  originalPushname : Option String
  name : String
  summary : String
  trustLevel : Nat
  isVerified : Bool
  deriving Repr, DecidableEq

/-- Intake-side state: the contacts table, the per-sender debounce buffer
(append log of `(jid, text)`), and a counter of
`conversationManager.touchConversation` invocations made by the intake path. -/
structure IntakeState where
  contacts : List ContactRec
  buffered : List (String × String)
  touchCalls : Nat
  deriving Repr, DecidableEq

/-- Shallow embedding of `WhatsAppClient.handleIncomingMessage`: normalize
the JID; drop events without text, status broadcasts, groups,
broadcast/newsletter channels and unknown JID formats; upsert the contact
(insert on first message, else backfill a missing push name); append the text
to the debounce buffer.  The `touchConversation` call in this path is
commented out in the source ("EMERGENCY FIX: Disabled ConversationManager…
TODO: Re-enable"), so `touchCalls` is never incremented.  The display-name
extractor is passed in (`IdentityValidator.extractDisplayName`); the claims
do not depend on the extracted name.  Returns the new state and whether the
message was accepted past the filters. -/
def handleIncomingMessage (cfg : OwnerConfig)
    (extractDisplayName : Option String → Option String)
    (st : IntakeState) (msg : InboundMsg) : IntakeState × Bool :=
  let remoteJid := normalizeJid cfg msg.remoteJid
  match msg.text with
  | none => (st, false)
  | some text =>
      if remoteJid = "status@broadcast" then (st, false)
      else if Str.endsWith remoteJid "@g.us" then (st, false)
      else if Gateway.strIncludes remoteJid "@broadcast" ||
          Gateway.strIncludes remoteJid "@newsletter" then (st, false)
      else if ¬ (Str.endsWith remoteJid "@s.whatsapp.net" ||
          Str.endsWith remoteJid "@lid") then (st, false)
      else
        let contacts' :=
          match st.contacts.find? (fun c => c.phone = remoteJid) with
          | none =>
              st.contacts ++ [⟨remoteJid, msg.pushName,
                (extractDisplayName msg.pushName).getD "Unknown",
                "New contact. Interaction started.", 0, false⟩]
          | some c =>
              if c.originalPushname.isNone && msg.pushName.isSome then
                st.contacts.map (fun d =>
                  if d.phone = remoteJid then
                    ⟨d.phone, msg.pushName, d.name, d.summary, d.trustLevel,
                      d.isVerified⟩
                  else d)
              else st.contacts
        ({ contacts := contacts'
           buffered := st.buffered ++ [(remoteJid, text)]
           touchCalls := st.touchCalls }, true)

end Intake

namespace Auth

/-- Decimal digit character for `d < 10`. -/
def digitChar (d : Nat) : Char :=
  match d with
  | 0 => '0' | 1 => '1' | 2 => '2' | 3 => '3' | 4 => '4'
  | 5 => '5' | 6 => '6' | 7 => '7' | 8 => '8' | _ => '9'

/-- Inverse of `digitChar`, via the character code. -/
def digitVal (c : Char) : Option Nat :=
  if 48 ≤ c.toNat ∧ c.toNat ≤ 57 then some (c.toNat - 48) else none

/-- Fixed-width (3 decimal digits) textual encoding of one byte. -/
def encodeByte (b : Fin 256) : List Char :=
  [digitChar (b.val / 100), digitChar ((b.val / 10) % 10), digitChar (b.val % 10)]

/-- Concatenated byte encoding of a blob. -/
def encodeBytes (data : List (Fin 256)) : List Char :=
  (data.map encodeByte).flatten

/-- Modelled from the spec: `JSON.stringify(data, BufferJSON.replacer)` — the
`BufferJSON` replacer/reviver pair lives in the transport SDK, outside
`src/`; per §3/§4.12 the value is "an arbitrary byte blob" stored with a
"binary-preserving textual encoding (e.g., buffers round-trip exactly)".  We
model it as a JSON object with a Buffer type marker whose data field holds
the fixed-width digit encoding of the bytes. -/
def blobPrefixChars : List Char :=
  "\x7b\"type\":\"Buffer\",\"data\":\"".data

/-- Closing marker of the encoded blob. -/
def blobSuffixChars : List Char := "\"\x7d".data

/-- The textual value stored for a blob. -/
def encodeBlob (data : List (Fin 256)) : String :=
  String.mk (blobPrefixChars ++ encodeBytes data ++ blobSuffixChars)

/-- Strip an expected character prefix, failing on mismatch. -/
def stripPrefixChars : List Char → List Char → Option (List Char)
  | [], cs => some cs
  | _ :: _, [] => none
  | p :: ps, c :: cs => if c = p then stripPrefixChars ps cs else none

/-- Decode the fixed-width digit encoding back into bytes. -/
def decodeBytes : List Char → Option (List (Fin 256))
  | [] => some []
  | c1 :: c2 :: c3 :: rest =>
      match digitVal c1, digitVal c2, digitVal c3 with
      | some d1, some d2, some d3 =>
          let n := d1 * 100 + d2 * 10 + d3
          if h : n < 256 then
            match decodeBytes rest with
            | some bs => some (⟨n, h⟩ :: bs)
            | none => none
          else none
      | _, _, _ => none
  | _ => none

/-- Modelled from the spec: `JSON.parse(value, BufferJSON.reviver)` — the
exact inverse of `encodeBlob`, validating the markers. -/
def decodeBlob (s : String) : Option (List (Fin 256)) :=
  match stripPrefixChars blobPrefixChars s.data with
  | none => none
  | some rest =>
      match stripPrefixChars blobSuffixChars.reverse rest.reverse with
      | none => none
      | some midRev => decodeBytes midRev.reverse

/-- Shallow embedding of `writeData(data, id)` from `usePostgresAuthState`:
compute the key `collectionName:id` and the encoded value, then upsert —
update the matching rows when a select finds one, insert otherwise.  (The
surrounding retry-on-transient-error loop returns after the first successful
attempt; against the pure store the first attempt succeeds.) -/
def writeData (store : List (String × String)) (collectionName id : String)
    (data : List (Fin 256)) : List (String × String) :=
  let key := collectionName ++ ":" ++ id
  let value := encodeBlob data
  if store.any (fun e => e.1 = key) then
    store.map (fun e => if e.1 = key then (key, value) else e)
  else
    store ++ [(key, value)]

/-- Shallow embedding of `readData(id)`: select by key `collectionName:id`;
when a row exists, parse its value with the reviver, else return null. -/
def readData (store : List (String × String)) (collectionName id : String) :
    Option (List (Fin 256)) :=
  let key := collectionName ++ ":" ++ id
  match store.find? (fun e => e.1 = key) with
  | some e => decodeBlob e.2
  | none => none

end Auth

namespace Gateway

/-- A concrete duration schedule: every request takes 1000 ms. -/
def cexDur : Nat → Nat := fun _ => 1000

/-- A concrete outcome schedule: every operation resolves. -/
def alwaysOk : Nat → Bool := fun _ => true

/-- A concrete invalid-key transport error (HTTP 400, `API_KEY_INVALID`). -/
def invalidKeyErr : GemError := ⟨some 400, none, "API_KEY_INVALID", none⟩

/-- A concrete two-key pool with no cooldowns. -/
def twoKeyPool : KeyPool := ⟨["keyA", "keyB"], 0, []⟩

/-- An operation oracle for which every key is invalid. -/
def alwaysInvalid : Nat → String → Except GemError Unit :=
  fun _ _ => Except.error invalidKeyErr

end Gateway

namespace Batch

/-- A concrete environment whose model always asks for another tool. -/
def loopingEnv : BatchEnv where
  isOwner := fun _ => false
  rateLimited := false
  contact := fun _ => some ⟨"254700000001@s.whatsapp.net", "Alice", false⟩
  llm := fun _ => GemOutcome.ok (GemResp.toolCall "search_web" 0)

/-- A concrete environment where the sender is never the owner. -/
def ackStrangerEnv : BatchEnv where
  isOwner := fun _ => false
  rateLimited := false
  contact := fun _ => some ⟨"254700000001@s.whatsapp.net", "Alice", false⟩
  llm := fun _ => GemOutcome.ok (GemResp.text "Hello!")

/-- A concrete environment where every sender is the owner. -/
def ackOwnerEnv : BatchEnv where
  isOwner := fun _ => true
  rateLimited := false
  contact := fun _ => some ⟨"254745026933@s.whatsapp.net", "Boss", true⟩
  llm := fun _ => GemOutcome.ok (GemResp.text "Noted.")

end Batch

namespace Intake

/-- A concrete owner configuration. -/
def sampleCfg : OwnerConfig := ⟨"254745026933", none⟩

/-- The empty intake-side state. -/
def emptyIntake : IntakeState := ⟨[], [], 0⟩

/-- A concrete accepted inbound direct message from a new contact. -/
def sampleInbound : InboundMsg :=
  ⟨"254700000001@s.whatsapp.net", some "hi", some "Alice"⟩

end Intake

/-!
Theorems.  Each claim of the specification is settled by one theorem below
(with a witness when the theorem has hypotheses, and a counterexample when
the claim as stated fails on the code).
-/

/-- C10: for every tool name outside the fixed tool set, `executeLocalTool`
returns the `\x7b error: "Tool not found." \x7d` value (the `switch` default)
rather than throwing, leaving the contacts store untouched. -/
theorem executeLocalTool_unknown_name (name : String) (args : Tools.ToolArgs)
    (ctx : Tools.ToolContext) (env : Tools.ToolEnv)
    (store : List Tools.ContactRow) (h : name ∉ Tools.fixedToolNames) :
    Tools.executeLocalTool name args ctx env store =
      (Tools.ToolReturn.errorVal "Tool not found.", store) := by
  unfold Tools.executeLocalTool
  split <;> simp_all [Tools.fixedToolNames]

/-- Witness for C10 at the concrete unknown name `made_up_tool`. -/
theorem executeLocalTool_unknown_name_witness :
    "made_up_tool" ∉ Tools.fixedToolNames ∧
    Tools.executeLocalTool "made_up_tool" Tools.noArgs Tools.strangerCtx
      Tools.sampleEnv Tools.sampleStore =
      (Tools.ToolReturn.errorVal "Tool not found.", Tools.sampleStore) :=
  ⟨by decide, executeLocalTool_unknown_name "made_up_tool" Tools.noArgs
    Tools.strangerCtx Tools.sampleEnv Tools.sampleStore (by decide)⟩

/-- C7: evaluating `executeLocalTool` at `update_contact_info` with valid
arguments shows the branch returns the fixed success message and performs no
mutation of the contacts store (the source returns a literal without touching
the database, contradicting the tool's own declaration "Update the
contact's name, summary, or trust level in the database"). -/
theorem update_contact_info_no_mutation :
    Tools.executeLocalTool "update_contact_info"
      { Tools.noArgs with summaryAddition := some "Is a lawyer" }
      Tools.strangerCtx Tools.sampleEnv Tools.sampleStore =
      (Tools.ToolReturn.resultVal
        "Contact info updated. You can confirm this to the user.",
        Tools.sampleStore) := rfl

/-- C1 (amended): consecutive gateway operations never overlap.  When an
operation resolves, `_enforceRateLimit` pads its slot so the next operation
starts at least `MIN_REQUEST_SPACING_MS` after this one's start, and the gap
between this request's completion and the next start is only
`MIN_REQUEST_SPACING_MS - duration` (truncated) — below the claimed minimum
whenever the request takes any positive time.  When an operation throws, the
catch path skips `_enforceRateLimit` and the next operation starts
immediately at the failure time, with no spacing at all. -/
theorem gateway_spacing_amended (t0 : Nat) (d : Nat → Nat) (ok : Nat → Bool)
    (n : Nat) :
    Gateway.requestEnd t0 d ok n ≤ Gateway.slotStart t0 d ok (n + 1) ∧
    (ok n = true →
      Gateway.slotStart t0 d ok n + Gateway.MIN_REQUEST_SPACING_MS ≤
        Gateway.slotStart t0 d ok (n + 1) ∧
      Gateway.slotStart t0 d ok (n + 1) =
        Gateway.requestEnd t0 d ok n +
          (Gateway.MIN_REQUEST_SPACING_MS - d n)) ∧
    (ok n = false →
      Gateway.slotStart t0 d ok (n + 1) = Gateway.requestEnd t0 d ok n) := by
  have h : Gateway.slotStart t0 d ok (n + 1) =
      Gateway.slotStart t0 d ok n +
        (if ok n = true then max (d n) Gateway.MIN_REQUEST_SPACING_MS
         else d n) := rfl
  unfold Gateway.requestEnd
  rw [h]
  cases hok : ok n with
  | true =>
      rw [if_pos rfl]
      obtain ⟨hm1, hm2, hm3⟩ :
          d n ≤ max (d n) Gateway.MIN_REQUEST_SPACING_MS ∧
          Gateway.MIN_REQUEST_SPACING_MS ≤
            max (d n) Gateway.MIN_REQUEST_SPACING_MS ∧
          max (d n) Gateway.MIN_REQUEST_SPACING_MS =
            d n + (Gateway.MIN_REQUEST_SPACING_MS - d n) := by
        rcases Nat.le_total (d n) Gateway.MIN_REQUEST_SPACING_MS with hle | hle
        · rw [Nat.max_eq_right hle]
          exact ⟨hle, le_refl _, by omega⟩
        · rw [Nat.max_eq_left hle]
          exact ⟨le_refl _, hle, by omega⟩
      exact ⟨by omega, fun _ => ⟨by omega, by omega⟩,
        (fun hfalse => nomatch hfalse)⟩
  | false =>
      rw [if_neg (by simp)]
      exact ⟨le_refl _, ⟨(fun htrue => nomatch htrue), (fun _ => rfl)⟩⟩

/-- Witness for C1's amended theorem on a run whose first operation resolves
after 1000 ms: the padded slot delays the second start to 3000 ms. -/
theorem gateway_spacing_amended_witness :
    Gateway.requestEnd 0 Gateway.cexDur Gateway.alwaysOk 0 ≤
      Gateway.slotStart 0 Gateway.cexDur Gateway.alwaysOk 1 ∧
    Gateway.slotStart 0 Gateway.cexDur Gateway.alwaysOk 0 +
        Gateway.MIN_REQUEST_SPACING_MS ≤
      Gateway.slotStart 0 Gateway.cexDur Gateway.alwaysOk 1 :=
  ⟨(gateway_spacing_amended 0 Gateway.cexDur Gateway.alwaysOk 0).1,
   ((gateway_spacing_amended 0 Gateway.cexDur Gateway.alwaysOk 0).2.1 rfl).1⟩

/-- Counterexample for C1 as stated: with every operation resolving after
1000 ms, the first request completes at t=1000 while the second starts at
t=3000 — a wall-clock gap of 2000 ms, strictly below
`MIN_REQUEST_SPACING_MS` (3000). -/
theorem gateway_spacing_cex :
    Gateway.requestEnd 0 Gateway.cexDur Gateway.alwaysOk 0 = 1000 ∧
    Gateway.slotStart 0 Gateway.cexDur Gateway.alwaysOk 1 = 3000 ∧
    Gateway.slotStart 0 Gateway.cexDur Gateway.alwaysOk 1 -
        Gateway.requestEnd 0 Gateway.cexDur Gateway.alwaysOk 0
      < Gateway.MIN_REQUEST_SPACING_MS := by decide

/-- C2 (amended): on an invalid-key error (HTTP 400 or a message containing
`API_KEY_INVALID` / `API key expired` — statuses 401/403 are not classified
invalid), `_handleOperationError` retries with the next key from the rotation
but does not mark the key unavailable: the key pool is returned unchanged, so
the invalid key stays in the rotation and can be drawn by later attempts. -/
theorem invalid_key_not_marked (e : Gateway.GemError) (k : String)
    (p : Gateway.KeyPool) (now : Nat)
    (hmsg : e.message ≠ "ALL_KEYS_EXHAUSTED")
    (hrl : Gateway.isRateLimitError e = false)
    (hinv : Gateway.isInvalidKeyError e = true) :
    Gateway.handleOperationError e k p now = (true, p) := by
  unfold Gateway.handleOperationError
  simp [hmsg, hrl, hinv]

/-- Witness for C2's amended theorem at the concrete 400/`API_KEY_INVALID`
error. -/
theorem invalid_key_not_marked_witness :
    Gateway.handleOperationError Gateway.invalidKeyErr "keyA"
      Gateway.twoKeyPool 0 = (true, Gateway.twoKeyPool) :=
  invalid_key_not_marked Gateway.invalidKeyErr "keyA" Gateway.twoKeyPool 0
    (by decide) (by decide) (by decide)

/-- Counterexample for C2 as stated: with two keys that both report
`API_KEY_INVALID`, the rotation's attempted-key trace begins
`keyA, keyB, keyA` — the third attempt reuses `keyA` after its invalid-key
failure, because `_handleOperationError` leaves the pool untouched on the
invalid-key branch; moreover statuses 401 and 403 are not classified as
invalid-key errors at all (`ERROR_CODES.INVALID_KEY` is only 400). -/
theorem invalid_key_reuse_cex :
    (Gateway.retryWithKeyRotation Gateway.alwaysInvalid Gateway.invalidKeyErr
      3 0 Gateway.twoKeyPool 0 []).usedKeys = ["keyA", "keyB", "keyA"] ∧
    Gateway.handleOperationError Gateway.invalidKeyErr "keyA"
      Gateway.twoKeyPool 0 = (true, Gateway.twoKeyPool) ∧
    Gateway.isInvalidKeyError ⟨some 401, none, "unauthorized", none⟩ = false ∧
    Gateway.isInvalidKeyError ⟨some 403, none, "forbidden", none⟩ = false := by
  refine ⟨?_, ?_, ?_, ?_⟩ <;> decide

/-- C4: evaluated at a concrete accepted inbound message from a new contact,
the intake path buffers the text and inserts the contact row but performs
zero `touchConversation` calls — the call is commented out in
`handleIncomingMessage` ("EMERGENCY FIX: Disabled ConversationManager …
TODO: Re-enable") — even though `touchConversation` itself, when invoked with
no active row present, does insert exactly one `active` conversations row. -/
theorem intake_touch_disabled :
    (Intake.handleIncomingMessage Intake.sampleCfg (fun _ => none)
      Intake.emptyIntake Intake.sampleInbound).2 = true ∧
    (Intake.handleIncomingMessage Intake.sampleCfg (fun _ => none)
      Intake.emptyIntake Intake.sampleInbound).1.touchCalls = 0 ∧
    (Intake.handleIncomingMessage Intake.sampleCfg (fun _ => none)
      Intake.emptyIntake Intake.sampleInbound).1.buffered =
      [("254700000001@s.whatsapp.net", "hi")] ∧
    Conv.touchConversation Conv.initConvState "254700000001@s.whatsapp.net" =
      ⟨[⟨0, "254700000001@s.whatsapp.net", true⟩], 1, []⟩ := by
  refine ⟨?_, ?_, ?_, ?_⟩ <;> decide

/-- Helper: a `find?` miss means no row satisfies the predicate, so the
active count is zero. -/
theorem countActive_eq_zero_of_findActive_none (rows : List Conv.ConvRow)
    (p : String) (h : Conv.findActive rows p = none) :
    Conv.countActive rows p = 0 := by
  unfold Conv.findActive at h
  unfold Conv.countActive
  rw [List.length_eq_zero]
  rw [List.find?_eq_none] at h
  exact List.filter_eq_nil_iff.mpr h

/-- Helper: `touchConversation` preserves the at-most-one-active invariant. -/
theorem touchConversation_preserves_inv (s : Conv.ConvState) (p : String)
    (h : Conv.Inv s) : Conv.Inv (Conv.touchConversation s p) := by
  intro q
  unfold Conv.touchConversation
  cases hf : Conv.findActive s.rows p with
  | some r => exact h q
  | none =>
      simp only [Conv.countActive, List.filter_append, List.length_append]
      by_cases hq : q = p
      · subst hq
        have h0 := countActive_eq_zero_of_findActive_none s.rows q hf
        unfold Conv.countActive at h0
        rw [h0]
        simp [Conv.matchesActive]
      · have hnew : Conv.matchesActive q ⟨s.nextId, p, true⟩ = false := by
          simp [Conv.matchesActive]
          exact fun hpq => absurd hpq.symm hq
        simp only [List.filter_cons, hnew, List.filter_nil, List.length_nil,
          Bool.false_eq_true, if_neg, ite_false]
        have := h q
        unfold Conv.countActive at this
        omega

/-- Helper: mapping a row transformer that never activates a row cannot
increase the active count. -/
theorem countActive_map_le (rows : List Conv.ConvRow) (q : String)
    (f : Conv.ConvRow → Conv.ConvRow)
    (hf : ∀ r, Conv.matchesActive q (f r) = true →
      Conv.matchesActive q r = true) :
    Conv.countActive (rows.map f) q ≤ Conv.countActive rows q := by
  induction rows with
  | nil => simp [Conv.countActive]
  | cons r rs ih =>
      simp only [List.map_cons, Conv.countActive, List.filter_cons] at ih ⊢
      cases hfr : Conv.matchesActive q (f r) with
      | true =>
          rw [hf r hfr]
          simpa using ih
      | false =>
          cases hr : Conv.matchesActive q r <;> simp <;> omega

/-- Helper: `endConversation` preserves the at-most-one-active invariant
(it only flips rows from active to completed). -/
theorem endConversation_preserves_inv (s : Conv.ConvState) (p : String)
    (h : Conv.Inv s) : Conv.Inv (Conv.endConversation s p) := by
  intro q
  unfold Conv.endConversation
  cases hf : Conv.findActive s.rows p with
  | none => exact h q
  | some r =>
      refine le_trans (countActive_map_le s.rows q _ ?_) (h q)
      intro x hx
      by_cases hid : x.id = r.id
      · simp [hid, Conv.matchesActive] at hx
      · simpa [hid] using hx

/-- C8: in every state reachable from the empty database by any sequence of
`touchConversation` / `endConversation` operations, at most one
`conversations` row per contact is `active`: `touchConversation` inserts an
active row only when none exists for that contact, and `endConversation`
only flips an existing active row to `completed`. -/
theorem at_most_one_active_per_contact (ops : List Conv.ConvOp)
    (phone : String) :
    Conv.countActive (Conv.applyOps Conv.initConvState ops).rows phone ≤ 1 := by
  suffices h : Conv.Inv (Conv.applyOps Conv.initConvState ops) from h phone
  have step : ∀ s op, Conv.Inv s → Conv.Inv (Conv.applyOp s op) := by
    intro s op hs
    cases op with
    | touch p => exact touchConversation_preserves_inv s p hs
    | close p => exact endConversation_preserves_inv s p hs
  have run : ∀ (l : List Conv.ConvOp) (s : Conv.ConvState),
      Conv.Inv s → Conv.Inv (Conv.applyOps s l) := by
    intro l
    induction l with
    | nil => intro s hs; exact hs
    | cons op rest ih =>
        intro s hs
        exact ih (Conv.applyOp s op) (step s op hs)
  refine run ops Conv.initConvState ?_
  intro q
  simp [Conv.initConvState, Conv.countActive]

/-- Counterexample for C3 as stated: a non-owner context invoking the
owner-gated `get_system_status` receives the performed operation's
`\x7b result \x7d` — not an `\x7b error \x7d` — because `executeLocalTool`
contains no owner check at all; and `check_schedule` returns the calendar's
bare string, which is neither `\x7b result: string \x7d` nor
`\x7b error: string \x7d`. -/
theorem executeLocalTool_owner_gate_cex :
    (Tools.executeLocalTool "get_system_status" Tools.noArgs Tools.strangerCtx
      Tools.sampleEnv Tools.sampleStore).1 =
      Tools.ToolReturn.resultVal "queue depth 5, workers 4" ∧
    (Tools.executeLocalTool "get_system_status" Tools.noArgs Tools.strangerCtx
      Tools.sampleEnv Tools.sampleStore).1.isError = false ∧
    (Tools.executeLocalTool "check_schedule" Tools.noArgs Tools.strangerCtx
      Tools.sampleEnv Tools.sampleStore).1 =
      Tools.ToolReturn.plainString "- [All Day] Standup (today)" ∧
    (Tools.executeLocalTool "check_schedule" Tools.noArgs Tools.strangerCtx
      Tools.sampleEnv Tools.sampleStore).1.isResult = false ∧
    (Tools.executeLocalTool "check_schedule" Tools.noArgs Tools.strangerCtx
      Tools.sampleEnv Tools.sampleStore).1.isError = false := by
  refine ⟨?_, ?_, ?_, ?_, ?_⟩ <;> rfl

/-- C3 (amended): `executeLocalTool` performs no owner check — each of the
five owner-gated tool names executes its backend operation and returns its
`\x7b result: string \x7d` for every invoker (the context carries no owner
flag) — and every dispatch returns `\x7b result: string \x7d` or
`\x7b error: string \x7d` except `check_schedule` (bare string) and
`check_availability` (`\x7b result: undefined \x7d` on an empty slot
list). -/
theorem executeLocalTool_no_owner_gate_amended (name : String)
    (args : Tools.ToolArgs) (ctx : Tools.ToolContext) (env : Tools.ToolEnv)
    (store : List Tools.ContactRow) :
    Tools.executeLocalTool "get_daily_summary" args ctx env store =
      (Tools.ToolReturn.resultVal (env.dailySummary args.date), store) ∧
    Tools.executeLocalTool "search_all_conversations" args ctx env store =
      (Tools.ToolReturn.resultVal
        (env.searchConvs (Tools.showOpt args.query)
          (Tools.orDefaultNat args.limit 10)), store) ∧
    Tools.executeLocalTool "get_recent_conversations" args ctx env store =
      (Tools.ToolReturn.resultVal
        (env.recentConvs (Tools.orDefaultNat args.limit 10)), store) ∧
    Tools.executeLocalTool "get_system_status" args ctx env store =
      (Tools.ToolReturn.resultVal env.systemStatus, store) ∧
    Tools.executeLocalTool "get_analytics" args ctx env store =
      (Tools.ToolReturn.resultVal env.analytics, store) ∧
    (name ≠ "check_schedule" → name ≠ "check_availability" →
      Tools.isResultOrError (Tools.executeLocalTool name args ctx env store).1) := by
  refine ⟨rfl, rfl, rfl, rfl, rfl, ?_⟩
  intro h1 h2
  unfold Tools.executeLocalTool
  split <;>
    first
      | exact absurd rfl h1
      | exact absurd rfl h2
      | exact Or.inl ⟨_, rfl⟩
      | exact Or.inr ⟨_, rfl⟩
      | (split <;>
          first
            | exact Or.inl ⟨_, rfl⟩
            | exact Or.inr ⟨_, rfl⟩
            | (split <;>
                first
                  | exact Or.inl ⟨_, rfl⟩
                  | exact Or.inr ⟨_, rfl⟩))

/-- Witness for C3's amended theorem at the concrete non-excluded name
`browse_url`. -/
theorem executeLocalTool_no_owner_gate_amended_witness :
    Tools.isResultOrError (Tools.executeLocalTool "browse_url" Tools.noArgs
      Tools.strangerCtx Tools.sampleEnv Tools.sampleStore).1 :=
  (executeLocalTool_no_owner_gate_amended "browse_url" Tools.noArgs
    Tools.strangerCtx Tools.sampleEnv Tools.sampleStore).2.2.2.2.2
    (by decide) (by decide)

/-- C6: when the concatenated batch text matches the ack pattern, a
non-owner sender is dropped before anything happens — no LLM call, no reply,
no message-log row (`emptyResult`) — while an owner sender bypasses the
short-circuit and (with the contact present and a text response from the
model) exactly one `generateReply` call is made. -/
theorem ack_short_circuit (env : Batch.BatchEnv) (jid : String)
    (msgs : List String)
    (hack : Batch.ignoredPattern (Str.joinWith "\n" msgs) = true) :
    (env.isOwner jid = false →
      Batch.processMessageBatch env jid msgs = Batch.emptyResult) ∧
    (env.isOwner jid = true →
      ∀ c s, env.contact jid = some c →
        env.llm 0 = Batch.GemOutcome.ok (Batch.GemResp.text s) →
        (Batch.processMessageBatch env jid msgs).llmCalls = 1) := by
  constructor
  · intro how
    unfold Batch.processMessageBatch
    simp [how, hack]
  · intro how c s hc hl
    unfold Batch.processMessageBatch
    simp only [how, hack, hc, hl, Batch.toolLoop]
    by_cases hs : s = "" <;>
      simp [hs, Batch.sendResponseAndLog]

/-- Witness for C6: "ok" from a non-owner is dropped entirely; "ok" from the
owner reaches the model exactly once. -/
theorem ack_short_circuit_witness :
    Batch.processMessageBatch Batch.ackStrangerEnv
      "254700000001@s.whatsapp.net" ["ok"] = Batch.emptyResult ∧
    (Batch.processMessageBatch Batch.ackOwnerEnv
      "254745026933@s.whatsapp.net" ["ok"]).llmCalls = 1 :=
  ⟨(ack_short_circuit Batch.ackStrangerEnv "254700000001@s.whatsapp.net"
      ["ok"] (by decide)).1 rfl,
   (ack_short_circuit Batch.ackOwnerEnv "254745026933@s.whatsapp.net"
      ["ok"] (by decide)).2 rfl
      ⟨"254745026933@s.whatsapp.net", "Boss", true⟩ "Noted." rfl rfl⟩

/-- Helper: when the model answers every `generateReply` in the window with
another tool call, the tool loop runs its whole fuel, making one LLM call and
one tool execution per iteration, and stops still holding a tool call. -/
theorem toolLoop_all_toolCalls (env : Batch.BatchEnv) (o : Bool) :
    ∀ (fuel callIdx : Nat) (name : String) (tag : Nat)
      (acc : Batch.BatchResult),
      (∀ i, callIdx ≤ i → i < callIdx + fuel →
        ∃ n t, env.llm i = Batch.GemOutcome.ok (Batch.GemResp.toolCall n t)) →
      ∃ n' t', Batch.toolLoop env o fuel callIdx
          (Batch.GemResp.toolCall name tag) acc =
        ⟨Batch.GemResp.toolCall n' t',
          { acc with
            llmCalls := acc.llmCalls + fuel
            toolExecs := acc.toolExecs + fuel }, false⟩ := by
  intro fuel
  induction fuel with
  | zero =>
      intro callIdx name tag acc _
      exact ⟨name, tag, by simp [Batch.toolLoop]⟩
  | succ fuel ih =>
      intro callIdx name tag acc h
      obtain ⟨n, t, hn⟩ := h callIdx (le_refl _) (by omega)
      obtain ⟨n', t', hrec⟩ := ih (callIdx + 1) n t
        { acc with
          toolExecs := acc.toolExecs + 1
          llmCalls := acc.llmCalls + 1 }
        (fun i hi1 hi2 => h i (by omega) (by omega))
      refine ⟨n', t', ?_⟩
      simp only [Batch.toolLoop, hn]
      rw [hrec]
      simp only [Batch.LoopOut.mk.injEq, Batch.BatchResult.mk.injEq,
        and_true, true_and]
      omega

/-- C5: if `generateReply` returns a tool call `MAX_TOOL_DEPTH + 1` (= 6)
times consecutively for a processed batch, the pipeline sends the canned
fallback reply and logs it as the agent message — it does not go silent —
after exactly 6 LLM calls. -/
theorem tool_depth_fallback (env : Batch.BatchEnv) (jid : String)
    (msgs : List String)
    (hnoack : Batch.ignoredPattern (Str.joinWith "\n" msgs) = false)
    (hrl : env.rateLimited = false)
    (hc : ∃ c, env.contact jid = some c)
    (htool : ∀ i, i ≤ Batch.MAX_TOOL_DEPTH →
      ∃ n t, env.llm i = Batch.GemOutcome.ok (Batch.GemResp.toolCall n t)) :
    (Batch.processMessageBatch env jid msgs).sent = [Batch.maxDepthFallback] ∧
    (Batch.processMessageBatch env jid msgs).agentLogs =
      [Batch.maxDepthFallback] ∧
    (Batch.processMessageBatch env jid msgs).llmCalls =
      Batch.MAX_TOOL_DEPTH + 1 := by
  obtain ⟨c, hcc⟩ := hc
  obtain ⟨n0, t0, h0⟩ := htool 0 (Nat.zero_le _)
  obtain ⟨n5, t5, hloop⟩ := toolLoop_all_toolCalls env (env.isOwner jid)
    5 1 n0 t0
    ⟨1, 0, [], [Str.joinWith "\n" msgs], [], false, false, false, false⟩
    (fun i hi1 hi2 => htool i (by
      simp only [Batch.MAX_TOOL_DEPTH]
      omega))
  dsimp only at hloop
  have hsent : Str.included Batch.maxDepthFallback "#END_SESSION#" = false := by
    decide
  refine ⟨?_, ?_, ?_⟩ <;>
  · unfold Batch.processMessageBatch
    simp [hnoack, hrl, hcc, h0, Batch.MAX_TOOL_DEPTH, Batch.emptyResult,
      hloop, Batch.sendResponseAndLog, hsent]

/-- Witness for C5 with a model that always asks for `search_web`. -/
theorem tool_depth_fallback_witness :
    (Batch.processMessageBatch Batch.loopingEnv "254700000001@s.whatsapp.net"
      ["find everything about the match"]).sent = [Batch.maxDepthFallback] :=
  (tool_depth_fallback Batch.loopingEnv "254700000001@s.whatsapp.net"
    ["find everything about the match"] (by decide) rfl
    ⟨⟨"254700000001@s.whatsapp.net", "Alice", false⟩, rfl⟩
    (fun i _ => ⟨"search_web", 0, rfl⟩)).1

/-- Helper: `digitVal` inverts `digitChar` on digits. -/
theorem digitVal_digitChar (d : Nat) (h : d < 10) :
    Auth.digitVal (Auth.digitChar d) = some d := by
  interval_cases d <;> rfl

/-- Helper: the fixed-width byte encoding decodes to the original bytes. -/
theorem decodeBytes_encodeBytes (data : List (Fin 256)) :
    Auth.decodeBytes (Auth.encodeBytes data) = some data := by
  induction data with
  | nil => rfl
  | cons b bs ih =>
      have hb := b.isLt
      have h1 : b.val / 100 < 10 := by omega
      have h2 : b.val / 10 % 10 < 10 := by omega
      have h3 : b.val % 10 < 10 := by omega
      have hshape : Auth.encodeBytes (b :: bs) =
          Auth.digitChar (b.val / 100) :: Auth.digitChar (b.val / 10 % 10) ::
          Auth.digitChar (b.val % 10) :: Auth.encodeBytes bs := by
        simp [Auth.encodeBytes, Auth.encodeByte]
      rw [hshape, Auth.decodeBytes]
      rw [digitVal_digitChar _ h1, digitVal_digitChar _ h2,
        digitVal_digitChar _ h3]
      have hn : b.val / 100 * 100 + b.val / 10 % 10 * 10 + b.val % 10 =
          b.val := by omega
      simp only [hn, hb, dif_pos, ih]

/-- Helper: stripping an expected prefix from exactly that prefix plus a rest
yields the rest. -/
theorem stripPrefixChars_append (ps rest : List Char) :
    Auth.stripPrefixChars ps (ps ++ rest) = some rest := by
  induction ps with
  | nil => rfl
  | cons p pt ih => simp [Auth.stripPrefixChars, ih]

/-- Helper: the blob encoding round-trips through the reviver. -/
theorem decodeBlob_encodeBlob (data : List (Fin 256)) :
    Auth.decodeBlob (Auth.encodeBlob data) = some data := by
  unfold Auth.decodeBlob Auth.encodeBlob
  show (match Auth.stripPrefixChars Auth.blobPrefixChars
      (Auth.blobPrefixChars ++ Auth.encodeBytes data ++ Auth.blobSuffixChars) with
    | none => none
    | some rest =>
        match Auth.stripPrefixChars Auth.blobSuffixChars.reverse rest.reverse with
        | none => none
        | some midRev => Auth.decodeBytes midRev.reverse) = some data
  rw [List.append_assoc, stripPrefixChars_append]
  dsimp only
  rw [List.reverse_append, stripPrefixChars_append]
  dsimp only
  simp [decodeBytes_encodeBytes]

/-- Helper: updating every row holding the key makes the first row found for
that key hold the new value. -/
theorem find?_upsert_update (store : List (String × String))
    (key value : String) (h : store.any (fun e => e.1 = key) = true) :
    (store.map (fun e => if e.1 = key then (key, value) else e)).find?
      (fun e => e.1 = key) = some (key, value) := by
  induction store with
  | nil => simp at h
  | cons e es ih =>
      by_cases hk : e.1 = key
      · simp [List.find?_cons, hk]
      · have h' : es.any (fun e => e.1 = key) = true := by
          simp [List.any_cons, hk] at h
          simpa using h
        have hd : decide (e.1 = key) = false := by simp [hk]
        simp only [List.map_cons, if_neg hk, List.find?_cons, hd]
        exact ih h'

/-- Helper: appending a fresh row for an absent key makes it the first row
found for that key. -/
theorem find?_append_new (store : List (String × String))
    (key value : String) (h : store.any (fun e => e.1 = key) = false) :
    (store ++ [(key, value)]).find? (fun e => e.1 = key) =
      some (key, value) := by
  induction store with
  | nil => simp
  | cons e es ih =>
      simp only [List.any_cons, Bool.or_eq_false_iff] at h
      simp only [List.cons_append, List.find?_cons, h.1]
      exact ih h.2

/-- C9: writing a byte blob through the credential store under key
`collection:id` and reading that id back returns exactly the original bytes:
the upsert stores the marker-wrapped textual encoding and the reviver decodes
it losslessly. -/
theorem credential_roundtrip (store : List (String × String))
    (collection id : String) (data : List (Fin 256)) :
    Auth.readData (Auth.writeData store collection id data) collection id =
      some data := by
  unfold Auth.readData Auth.writeData
  dsimp only
  by_cases h : store.any (fun e => e.1 = (collection ++ ":" ++ id)) = true
  · rw [if_pos h,
      find?_upsert_update store (collection ++ ":" ++ id) (Auth.encodeBlob data) h]
    exact decodeBlob_encodeBlob data
  · rw [if_neg h,
      find?_append_new store (collection ++ ":" ++ id) (Auth.encodeBlob data)
        (Bool.eq_false_iff.mpr h)]
    exact decodeBlob_encodeBlob data
